import Mathlib

/-!
Verification of the blog-assistant backend (`backend/services/scoring_service.py`,
`backend/services/agent_service.py`, `backend/services/llm_service.py`,
`backend/utils/retry.py`, `backend/models.py`).

Shallow embedding conventions:
* Python numbers (ints and floats) are modelled as `ℚ`; list/str indices as `ℕ`;
  `str.find` results (which may be `-1`) as `ℤ`.
* Python strings are `String`, or `List Char` where positional scanning matters
  (`str.find`, `str.split`); Python `len` on a string is the character count,
  matching `String.length` / `List.length` on `.toList`.
* `round(x, 2)` is modelled as floor-based half-up rounding (`pyRound2`).
  Python rounds half-to-even; the two agree except at exact midpoints of a
  cent, and no claim below depends on midpoint behaviour.
* Dictionaries whose keys are branched on with `in` / `.get` are association
  lists `List (String × _)` or records with `Option` fields (one per key the
  code touches).
* Fallible operations return `Except`; the outcome of one external analyzer
  call is passed in as an `Except` value, a whole retried call as an oracle
  `ℕ → Except ε α` giving each attempt's outcome.
-/

namespace Spec2Proof

/-! ## Python primitives -/

/-- Floor of a rational, written so that it reduces in the kernel
(`Rat.floor_def` shows it equals `⌊q⌋`). -/
def ratFloor (q : ℚ) : ℤ := q.num / (q.den : ℤ)

/-- Python `int(x)` on a float/rational: truncation toward zero. -/
def pyInt (q : ℚ) : ℤ := if 0 ≤ q then ratFloor q else -ratFloor (-q)

/-- Python `round(x, 2)`: round to two decimal places (see header note on
midpoints). -/
def pyRound2 (q : ℚ) : ℚ := (ratFloor (q * 100 + 1/2) : ℚ) / 100

/-- Python `s.lower()` (per-character; the texts in this file are ASCII). -/
def pyLower (s : String) : String := String.mk (s.data.map Char.toLower)

/-- First index at which `needle` occurs in the haystack (leftmost match),
`none` if it does not occur.  `findSub [] h = some 0`, as in Python. -/
def findSub (needle : List Char) : List Char → Option ℕ
  | [] => if needle.isPrefixOf ([] : List Char) then some 0 else none
  | c :: t =>
    if needle.isPrefixOf (c :: t) then some 0
    else (findSub needle t).map (· + 1)

/-- Python `needle in hay` for strings. -/
def strContains (hay needle : String) : Bool := (findSub needle.toList hay.toList).isSome

/-- Python `hay.find(needle)`: index of the first occurrence, `-1` if absent. -/
def pyFind (hay needle : List Char) : ℤ :=
  match findSub needle hay with
  | some n => (n : ℤ)
  | none => -1

/-! ## `models.py` — data model

`UserProfile` (models.py lines 19–27); validation (`reading_level`,
`writing_style` patterns) is not needed by the claims below. -/

structure UserProfile where
  user_id : String
  preferred_topics : List String
  reading_level : String
  writing_style : String
  target_audience : Option String
  expertise_areas : List String
deriving DecidableEq

/-- `ScoreBreakdown` (models.py lines 141–148): six sub-scores; the pydantic
model constrains each field to `0 ≤ _ ≤ 100` and raises on violation (C1). -/
structure ScoreBreakdown where
  keyword_relevance : ℚ
  readability : ℚ
  user_profile_alignment : ℚ
  content_structure : ℚ
  seo_optimization : ℚ
  engagement_potential : ℚ
deriving DecidableEq

/-! ## `scoring_service.py` — style / profile alignment (C1) -/

/-- `_calculate_style_alignment`, "formal" branch, `formal_indicators`. -/
def formal_branch_formal_indicators : List String :=
  ["therefore", "furthermore", "however", "moreover", "consequently"]

/-- `_calculate_style_alignment`, "formal" branch, `informal_indicators`. -/
def formal_branch_informal_indicators : List String :=
  ["don't", "won't", "can't", "it's", "we're"]

/-- `_calculate_style_alignment`, "casual" branch, `casual_indicators`. -/
def casual_branch_casual_indicators : List String :=
  ["don't", "won't", "can't", "it's", "we're", "you'll", "i'll"]

/-- `_calculate_style_alignment`, "casual" branch, `formal_indicators`. -/
def casual_branch_formal_indicators : List String :=
  ["therefore", "furthermore", "however", "moreover"]

/-- `_calculate_style_alignment`, "technical" branch, `tech_indicators`. -/
def tech_indicators : List String :=
  ["algorithm", "implementation", "methodology", "analysis", "optimization"]

/-- `_calculate_style_alignment`, "creative" branch, `creative_indicators`. -/
def creative_indicators : List String :=
  ["imagine", "picture", "story", "metaphor", "analogy"]

/-- `sum(1 for indicator in indicators if indicator in content_lower)`. -/
def countIndicators (content_lower : String) (indicators : List String) : ℕ :=
  (indicators.filter (fun ind => strContains content_lower ind)).length

/-- `_calculate_style_alignment` (scoring_service.py lines 473–511). -/
def calculate_style_alignment (content : String) (writing_style : String) : ℚ :=
  let content_lower := pyLower content
  if writing_style = "formal" then
    max 0 (50 + (countIndicators content_lower formal_branch_formal_indicators : ℚ) * 10
             - (countIndicators content_lower formal_branch_informal_indicators : ℚ) * 5)
  else if writing_style = "casual" then
    max 0 (50 + (countIndicators content_lower casual_branch_casual_indicators : ℚ) * 8
             - (countIndicators content_lower casual_branch_formal_indicators : ℚ) * 5)
  else if writing_style = "technical" then
    min 100 (50 + (countIndicators content_lower tech_indicators : ℚ) * 15)
  else if writing_style = "creative" then
    min 100 (50 + (countIndicators content_lower creative_indicators : ℚ) * 12)
  else 50

/-- `_calculate_audience_alignment` (scoring_service.py lines 513–537):
`audience_keywords` in dict insertion order. -/
def audience_keywords : List (String × List String) :=
  [("beginner", ["learn", "start", "basic", "simple", "easy", "introduction"]),
   ("professional", ["strategy", "business", "professional", "industry", "market"]),
   ("technical", ["technical", "system", "implementation", "configuration", "development"]),
   ("academic", ["research", "study", "analysis", "theory", "methodology"]),
   ("general", ["help", "guide", "tips", "advice", "useful"])]

/-- `_calculate_audience_alignment`: fold over the categories keeping the best
match (`target_audience.lower() in audience_type`, `elif audience_type ==
'general'` with the 0.7 discount). -/
def calculate_audience_alignment (content : String) (target_audience : String) : ℚ :=
  let content_lower := pyLower content
  audience_keywords.foldl (fun best p =>
    let kw_matches := (p.2.filter (fun kw => strContains content_lower kw)).length
    let match_score : ℚ := min 100 ((kw_matches : ℚ) * 20)
    if strContains p.1 (pyLower target_audience) then max best match_score
    else if p.1 = "general" then max best (match_score * (7/10))
    else best) 0

/-- `_calculate_user_profile_alignment` (scoring_service.py lines 193–238).
Empty lists and the empty string are falsy in Python, so each optional factor
is appended only when its profile field is non-empty. -/
def calculate_user_profile_alignment (content : String) (user_profile : Option UserProfile) : ℚ :=
  match user_profile with
  | none => 50
  | some profile =>
    let content_lower := pyLower content
    let scores : List ℚ := []
    let scores :=
      if profile.preferred_topics ≠ [] then
        let topic_matches :=
          (profile.preferred_topics.filter (fun t => strContains content_lower (pyLower t))).length
        scores ++ [min 100 (((topic_matches : ℚ) / (profile.preferred_topics.length : ℚ)) * 100)]
      else scores
    let scores := scores ++ [calculate_style_alignment content profile.writing_style]
    let scores :=
      if profile.expertise_areas ≠ [] then
        let expertise_matches :=
          (profile.expertise_areas.filter (fun a => strContains content_lower (pyLower a))).length
        scores ++ [min 100 (((expertise_matches : ℚ) / (profile.expertise_areas.length : ℚ)) * 100)]
      else scores
    let scores :=
      match profile.target_audience with
      | some aud => if aud = "" then scores else scores ++ [calculate_audience_alignment content aud]
      | none => scores
    if scores ≠ [] then pyRound2 (scores.sum / (scores.length : ℚ)) else 50

/-- A draft containing all seven casual indicators and no formal one. -/
def c1_content : String := "don't won't can't it's we're you'll i'll"

/-- A profile whose only applicable alignment factor is writing style. -/
def c1_profile : UserProfile :=
  { user_id := "u1", preferred_topics := [], reading_level := "intermediate",
    writing_style := "casual", target_audience := none, expertise_areas := [] }

/-! ## `agent_service.py` — workflow state (C2, C3, C4, C7) -/

/-- `TokenUsage` (models.py lines 51–57). -/
structure TokenUsage where
  prompt_tokens : ℚ
  completion_tokens : ℚ
  total_tokens : ℚ
  cost_estimate : ℚ
  model_used : String
deriving DecidableEq

/-- A keyword dict as passed between workflow stages; the code reads the keys
`keyword` and `relevance_score` with `.get`, so both are optional. -/
structure KeywordDict where
  keyword : Option String
  relevance_score : Option ℚ
deriving DecidableEq

/-- A weak-section dict as built by `_identify_weaknesses_node`
(agent_service.py lines 193–201); positions come from `str.find`, hence `ℤ`. -/
structure WeakSection where
  start_position : ℤ
  end_position : ℤ
  issue_type : String
  severity : String
  suggestion : String
  confidence : ℚ
deriving DecidableEq

/-- The five `scores` of `_format_keyword_result` (llm_service.py 627–633). -/
structure FormattedScores where
  overall_score : ℚ
  readability_score : ℚ
  relevance_score : ℚ
  engagement_score : ℚ
  seo_score : ℚ
deriving DecidableEq

/-- The dict returned by `LLMService.recommend_keywords` via
`_format_keyword_result` (llm_service.py lines 620–663). -/
structure KeywordRecResult where
  keywords : List KeywordDict
  weak_sections : List WeakSection
  realtime_score : FormattedScores
  token_usage : TokenUsage
  suggestions_context : String
deriving DecidableEq

/-- One entry of `state['analysis_history']` (appended at agent_service.py
lines 126–130); `_identify_weaknesses_node` later adds the `weak_sections`
key to the newest entry, hence the `Option`. -/
structure AnalysisEntry where
  timestamp : String
  analysis : KeywordRecResult
  draft_length : ℕ
  weak_sections : Option (List WeakSection)
deriving DecidableEq

/-- One entry of `state['previous_suggestions']` (agent_service.py 154–158);
`_refine_suggestions_node` later adds `refined_keywords`. -/
structure SuggestionEntry where
  timestamp : String
  keywords : List KeywordDict
  context : String
  refined_keywords : Option (List KeywordDict)
deriving DecidableEq

/-- `AgentState` (agent_service.py lines 22–32).  `current_score` is the
`breakdown.dict()` stored by `_score_content_node`, an association list. -/
structure AgentState where
  session_id : String
  user_profile : Option UserProfile
  current_draft : String
  cursor_position : ℕ
  previous_suggestions : List SuggestionEntry
  analysis_history : List AnalysisEntry
  current_score : List (String × ℚ)
  iteration_count : ℕ
  last_updated : String
deriving DecidableEq

/-- `_content_changed_significantly` (agent_service.py lines 280–290):
`analysis_history[-2]` is the element at index `length - 2`, and the ratio is
`abs(current - previous) / max(previous, 1)`. -/
def content_changed_significantly (s : AgentState) : Bool :=
  if s.analysis_history.length < 2 then false
  else
    let current_length := s.current_draft.length
    let previous_length :=
      ((s.analysis_history.get? (s.analysis_history.length - 2)).map (·.draft_length)).getD 0
    decide (|(current_length : ℚ) - (previous_length : ℚ)| / max (previous_length : ℚ) 1 > 1/5)

/-- `_should_iterate` (agent_service.py lines 267–278), `max_iterations = 2`. -/
def should_iterate (s : AgentState) : String :=
  if s.iteration_count < 2 then
    if content_changed_significantly s then "continue" else "end"
  else "end"

/-- Outcome stand-in for an exception raised by
`llm_service.recommend_keywords`. -/
inductive AnalyzerError where
  | failure
deriving DecidableEq

/-- `_analyze_draft_node` (agent_service.py lines 112–136).  The single
`recommend_keywords` call's outcome is passed in; on success the entry
`{timestamp, analysis, draft_length}` is appended, on an exception the
`except` block logs and returns the state unchanged. -/
def analyze_draft_node (llm_result : Except AnalyzerError KeywordRecResult)
    (now : String) (s : AgentState) : AgentState :=
  match llm_result with
  | .ok analysis =>
    { s with analysis_history := s.analysis_history ++
        [{ timestamp := now, analysis := analysis,
           draft_length := s.current_draft.length, weak_sections := none }] }
  | .error _ => s

/-- A fresh run state, as `update_draft` builds it (agent_service.py 374–384). -/
def initial_state (sid : String) (profile : Option UserProfile) (draft : String)
    (cursor : ℕ) (now : String) : AgentState :=
  { session_id := sid, user_profile := profile, current_draft := draft,
    cursor_position := cursor, previous_suggestions := [], analysis_history := [],
    current_score := [], iteration_count := 0, last_updated := now }

/-- Concrete run state used by the C3 counterexample. -/
def c3_state : AgentState := initial_state "s1" none "A draft." 0 "t0"

/-- A run state on which `_should_iterate` continues: one iteration done, two
analysis entries recording length 8, current draft much longer. -/
def c2_entry (len : ℕ) : AnalysisEntry :=
  { timestamp := "t", draft_length := len, weak_sections := none,
    analysis := { keywords := [], weak_sections := [],
                  realtime_score := ⟨70, 65, 75, 70, 65⟩,
                  token_usage := ⟨0, 0, 0, 0, "m"⟩,
                  suggestions_context := "c" } }

def c2_state : AgentState :=
  { c3_state with iteration_count := 1,
                  analysis_history := [c2_entry 8, c2_entry 8],
                  current_draft := "A much longer draft than we had before." }

/-- `breakdown.dict()` as stored into `state['current_score']` by
`_score_content_node` (agent_service.py line 177): the six snake_case keys of
`ScoreBreakdown`. -/
def breakdownPairs (b : ScoreBreakdown) : List (String × ℚ) :=
  [("keyword_relevance", b.keyword_relevance), ("readability", b.readability),
   ("user_profile_alignment", b.user_profile_alignment),
   ("content_structure", b.content_structure),
   ("seo_optimization", b.seo_optimization),
   ("engagement_potential", b.engagement_potential)]

/-- Python `d.get(key, default)` on a string-keyed dict of numbers. -/
def pyDictGet (d : List (String × ℚ)) (key : String) (dflt : ℚ) : ℚ :=
  match d.find? (fun p => p.1 == key) with
  | some p => p.2
  | none => dflt

/-- `_score_content_node` (agent_service.py lines 166–183), success path: the
scoring result's breakdown is stored as the run's current score. -/
def score_content_node (breakdown : ScoreBreakdown) (s : AgentState) : AgentState :=
  { s with current_score := breakdownPairs breakdown }

/-- `_contextual_refinement` readability boost terms (line 326). -/
def readability_terms : List String := ["simple", "clear", "easy"]

/-- `_contextual_refinement` SEO boost terms (line 331). -/
def seo_terms : List String := ["keyword", "search", "optimize"]

/-- `_contextual_refinement` (agent_service.py lines 316–340): boost, clamp to
1.0, stable sort descending by `relevance_score` (Python `list.sort` with
`reverse=True`), keep the top 10. -/
def contextual_refinement (keywords : List KeywordDict) (content : String)
    (cursor_position : ℕ) (current_score : List (String × ℚ)) : List KeywordDict :=
  let refined_keywords := keywords.map (fun kw =>
    let relevance := kw.relevance_score.getD (1/2)
    let relevance :=
      if pyDictGet current_score "readability" 70 < 60 ∧
         readability_terms.any (fun term => strContains (pyLower (kw.keyword.getD "")) term) then
        relevance * (13/10)
      else relevance
    let relevance :=
      if pyDictGet current_score "seo" 70 < 60 ∧
         seo_terms.any (fun term => strContains (pyLower (kw.keyword.getD "")) term) then
        relevance * (12/10)
      else relevance
    { kw with relevance_score := some (min 1 relevance) })
  (refined_keywords.mergeSort
    (fun a b => decide (b.relevance_score.getD 0 ≤ a.relevance_score.getD 0))).take 10

/-- A keyword that contains the boost term "search". -/
def c4_keyword : KeywordDict := { keyword := some "search", relevance_score := some (1/2) }

/-- A breakdown whose SEO sub-score 50 is below the boost threshold 60. -/
def c4_breakdown : ScoreBreakdown :=
  { keyword_relevance := 70, readability := 70, user_profile_alignment := 70,
    content_structure := 70, seo_optimization := 50, engagement_potential := 70 }

/-! ## `scoring_service.py` — overall score (C5) -/

/-- The `weights` dict of `calculate_comprehensive_score` (lines 75–82). -/
def scoring_weights : List (String × ℚ) :=
  [("keyword_relevance", 25/100), ("readability", 20/100),
   ("user_profile_alignment", 15/100), ("content_structure", 15/100),
   ("seo_optimization", 15/100), ("engagement_potential", 10/100)]

/-- `getattr(breakdown, field)` for the six score fields. -/
def breakdownField (b : ScoreBreakdown) (field : String) : ℚ :=
  if field = "keyword_relevance" then b.keyword_relevance
  else if field = "readability" then b.readability
  else if field = "user_profile_alignment" then b.user_profile_alignment
  else if field = "content_structure" then b.content_structure
  else if field = "seo_optimization" then b.seo_optimization
  else if field = "engagement_potential" then b.engagement_potential
  else 0

/-- `overall_score = sum(getattr(breakdown, field) * weight for field, weight
in weights.items())` (lines 84–87). -/
def weighted_overall (b : ScoreBreakdown) : ℚ :=
  (scoring_weights.map (fun p => breakdownField b p.1 * p.2)).sum

/-- `result["overall_score"] = round(overall_score, 2)` (line 92). -/
def overall_score_result (b : ScoreBreakdown) : ℚ := pyRound2 (weighted_overall b)

/-- All-fifties breakdown used as the C5 witness input. -/
def c5_breakdown : ScoreBreakdown :=
  { keyword_relevance := 50, readability := 50, user_profile_alignment := 50,
    content_structure := 50, seo_optimization := 50, engagement_potential := 50 }

/-! ## `utils/retry.py` — retry executor (C6) -/

/-- Outcome of `retry_with_exponential_backoff`: the value returned or the
error raised, together with how many attempts were made and how many
`asyncio.sleep` waits were performed. -/
inductive RetryResult (ε α : Type) where
  | ok (value : α) (attempts : ℕ) (sleeps : ℕ)
  | exhausted (last : ε) (attempts : ℕ) (sleeps : ℕ)
  | raised (e : ε) (attempts : ℕ) (sleeps : ℕ)
deriving DecidableEq

/-- The `for attempt in range(max_retries + 1)` loop of
`retry_with_exponential_backoff` (retry.py lines 46–89).  `f` is the oracle
giving each attempt's outcome and `retryable` models membership in the
`retry_exceptions` tuple.  A success returns at once (`attempt` sleeps were
performed, one after each earlier failure); a retryable failure either breaks
out when `attempt == max_retries` (`remaining = 0`), after which the loop's
tail raises `RetryError(last_exception)`, or sleeps and retries; any other
exception re-raises immediately. -/
def retryLoop {ε α : Type} (retryable : ε → Bool) (f : ℕ → Except ε α) :
    ℕ → ℕ → RetryResult ε α
  | remaining, attempt =>
    match f attempt with
    | .ok a => .ok a (attempt + 1) attempt
    | .error e =>
      if retryable e then
        match remaining with
        | 0 => .exhausted e (attempt + 1) attempt
        | r + 1 => retryLoop retryable f r (attempt + 1)
      else .raised e (attempt + 1) attempt

/-- `retry_with_exponential_backoff(func, max_retries=...)`: run the loop from
attempt 0 with `max_retries` retries remaining. -/
def retry_with_exponential_backoff {ε α : Type} (retryable : ε → Bool)
    (f : ℕ → Except ε α) (max_retries : ℕ) : RetryResult ε α :=
  retryLoop retryable f max_retries 0

/-- Number of attempts actually performed. -/
def attemptsOf {ε α : Type} : RetryResult ε α → ℕ
  | .ok _ n _ => n
  | .exhausted _ n _ => n
  | .raised _ n _ => n

/-- Everything retryable; used by the C6 witness. -/
def c6_retryable : ℕ → Bool := fun _ => true

/-- Attempt oracle of the spec's test: attempts 0 and 1 fail, attempt 2
succeeds with 42. -/
def c6_attempt_results : ℕ → Except ℕ ℕ := fun i => if i < 2 then .error 7 else .ok 42

/-! ## `agent_service.py` — weakness identification (C7) -/

/-- The separator `". "` of `content.split('. ')` (agent_service.py 191). -/
def sentence_sep : List Char := ['.', ' ']

/-- A found occurrence fits inside the haystack; this justifies `pySplit`'s
termination. -/
theorem findSub_some_le :
    ∀ (needle hay : List Char) (n : ℕ), findSub needle hay = some n →
      n + needle.length ≤ hay.length := by
  intro needle hay
  induction hay with
  | nil =>
    intro n h
    unfold findSub at h
    by_cases hpre : needle.isPrefixOf ([] : List Char) = true
    · rw [if_pos hpre] at h
      injection h with h0
      have := (List.isPrefixOf_iff_prefix.mp hpre).length_le
      simp at this
      simp [← h0, this]
    · rw [if_neg hpre] at h
      exact absurd h (by simp)
  | cons c t ih =>
    intro n h
    unfold findSub at h
    by_cases hpre : needle.isPrefixOf (c :: t) = true
    · rw [if_pos hpre] at h
      injection h with h0
      have := (List.isPrefixOf_iff_prefix.mp hpre).length_le
      simp only [List.length_cons] at this ⊢
      omega
    · rw [if_neg hpre] at h
      obtain ⟨n', hn', rfl⟩ : ∃ n', findSub needle t = some n' ∧ n' + 1 = n := by
        cases hfs : findSub needle t with
        | none => rw [hfs] at h; exact absurd h (by simp)
        | some n' => rw [hfs] at h; injection h with h0; exact ⟨n', rfl, h0⟩
      have := ih n' hn'
      simp only [List.length_cons]
      omega

/-- Python `content.split('. ')`: cut at the leftmost occurrence of the
separator and continue after it; a final list element remains even when no
separator occurs (`''.split('. ') == ['']`). -/
def pySplit (s : List Char) : List (List Char) :=
  match h : findSub sentence_sep s with
  | none => [s]
  | some n => s.take n :: pySplit (s.drop (n + 2))
termination_by s.length
decreasing_by
  have hle : n + 2 ≤ s.length := by
    have := findSub_some_le sentence_sep s n h
    simpa [sentence_sep] using this
  simp only [List.length_drop]
  omega

/-- The WeakSection dict built for a too-short segment (agent_service.py
194–201): first-occurrence position, end = start + length, fixed tag fields. -/
def short_sentence_section (content sentence : List Char) : WeakSection :=
  { start_position := pyFind content sentence,
    end_position := pyFind content sentence + (sentence.length : ℤ),
    issue_type := "sentence_too_short", severity := "medium",
    suggestion := "Consider expanding this sentence with more detail",
    confidence := 7/10 }

/-- The weakness loop of `_identify_weaknesses_node` (agent_service.py lines
189–201): split on `". "`, flag every segment shorter than 10 characters. -/
def identify_weaknesses (content : List Char) : List WeakSection :=
  (pySplit content).foldl
    (fun weak_sections sentence =>
      if sentence.length < 10 then weak_sections ++ [short_sentence_section content sentence]
      else weak_sections) []

/-- The spec's example draft for weak-section detection. -/
def c7_draft : List Char :=
  ("Ok. This is a much longer sentence that exceeds ten characters easily.").data

/-! ## `agent_service.py` — session lifecycle (C8, C10) -/

/-- `RealtimeScore` (models.py lines 95–101). -/
structure RealtimeScore where
  overall_score : ℚ
  readability_score : ℚ
  relevance_score : ℚ
  engagement_score : ℚ
  seo_score : ℚ
deriving DecidableEq

/-- `state['final_response']` as assembled by `_finalize_response_node`
(agent_service.py lines 250–256); this is what `update_draft` returns and
appends to the session's suggestion history. -/
structure FinalResponse where
  keywords : List KeywordDict
  realtime_score : List (String × ℚ)
  weak_sections : List WeakSection
  suggestions_context : String
  timestamp : String
deriving DecidableEq

/-- `AgentSession` (models.py lines 121–130); timestamps are modelled as
rationals so that the summary's duration subtraction is expressible. -/
structure AgentSession where
  session_id : String
  user_profile : UserProfile
  current_draft : String
  suggestion_history : List FinalResponse
  score_history : List RealtimeScore
  created_at : ℚ
  last_updated : ℚ
  is_active : Bool
deriving DecidableEq

/-- `self.active_sessions : Dict[str, AgentSession]`. -/
abbrev SessionStore := List (String × AgentSession)

/-- Dict lookup: `store[key]` / `key in store`. -/
def dictGet {β : Type} : List (String × β) → String → Option β
  | [], _ => none
  | (k', v') :: t, key => if k' == key then some v' else dictGet t key

/-- Dict assignment `store[key] = v` (replace or append). -/
def dictSet {β : Type} : List (String × β) → String → β → List (String × β)
  | [], key, v => [(key, v)]
  | (k', v') :: t, key, v =>
    if k' == key then (key, v) :: t else (k', v') :: dictSet t key v

/-- Dict deletion `del store[key]`. -/
def dictDel {β : Type} (d : List (String × β)) (key : String) : List (String × β) :=
  d.filter (fun p => !(p.1 == key))

/-- `start_session` (agent_service.py lines 342–361): a fresh `AgentSession`
with the model's defaults (empty draft, empty histories, active) is stored
under the freshly generated id. -/
def start_session (store : SessionStore) (session_id : String) (profile : UserProfile)
    (now : ℚ) : SessionStore :=
  dictSet store session_id
    { session_id := session_id, user_profile := profile, current_draft := "",
      suggestion_history := [], score_history := [], created_at := now,
      last_updated := now, is_active := true }

/-- `ValueError(f"Session {session_id} not found")` as a tagged error. -/
inductive AgentError where
  | sessionNotFound (session_id : String)
deriving DecidableEq

/-- `update_draft` (agent_service.py lines 363–401).  The workflow's final
response is passed in; the session mutation is exactly: set `current_draft`
and `last_updated`, then append the response to `suggestion_history`.
`score_history` is never touched. -/
def update_draft (store : SessionStore) (session_id : String) (draft_text : String)
    (response : FinalResponse) (now : ℚ) : Except AgentError (FinalResponse × SessionStore) :=
  match dictGet store session_id with
  | none => .error (.sessionNotFound session_id)
  | some session =>
    let session := { session with current_draft := draft_text, last_updated := now }
    let session := { session with suggestion_history := session.suggestion_history ++ [response] }
    .ok (response, dictSet store session_id session)

/-- `_calculate_average_score` (agent_service.py lines 511–517). -/
def calculate_average_score (score_history : List RealtimeScore) : ℚ :=
  if score_history = [] then 0
  else (score_history.map (·.overall_score)).sum / (score_history.length : ℚ)

/-- The summary dict returned by `end_session` (agent_service.py 494–499). -/
structure SessionSummary where
  session_duration : ℚ
  total_suggestions : ℕ
  final_draft_length : ℕ
  average_score : ℚ
deriving DecidableEq

/-- `end_session` (agent_service.py lines 484–509): summary built from the
session, then the session removed from the store. -/
def end_session (store : SessionStore) (session_id : String) (now : ℚ) :
    Except AgentError (SessionSummary × SessionStore) :=
  match dictGet store session_id with
  | none => .error (.sessionNotFound session_id)
  | some session =>
    let session := { session with is_active := false }
    .ok ({ session_duration := now - session.created_at,
           total_suggestions := session.suggestion_history.length,
           final_draft_length := session.current_draft.length,
           average_score := calculate_average_score session.score_history },
         dictDel store session_id)

/-- A sequence of `update_draft` calls against one session id (each with its
draft text, workflow response and timestamp). -/
def apply_updates (session_id : String) :
    SessionStore → List (String × FinalResponse × ℚ) → SessionStore
  | store, [] => store
  | store, (draft, response, now) :: rest =>
    match update_draft store session_id draft response now with
    | .ok (_, store') => apply_updates session_id store' rest
    | .error _ => apply_updates session_id store rest

/-- A concrete response payload for the C8/C10 witnesses. -/
def c8_response : FinalResponse :=
  { keywords := [], realtime_score := [], weak_sections := [],
    suggestions_context := "Analysis iteration 0", timestamp := "t" }

/-! ## `llm_service.py` — response sanitization (C9)

`_validate_and_sanitize_response` (llm_service.py lines 305–389) branches on
the schema key and on the presence of each dict key; each response shape is a
record with one `Option` field per key the code touches.  The clamps are
`max(0.0, min(1.0, float(x)))`, `max(0, min(100, int(float(x))))`,
`max(1, int(x))` and `max(0, int(x))`. -/

/-- `max(0.0, min(1.0, float(x)))`. -/
def sanProb (q : ℚ) : ℚ := max 0 (min 1 q)

/-- `max(0, min(100, int(float(x))))`. -/
def sanScore100 (q : ℚ) : ℚ := ((max 0 (min 100 (pyInt q)) : ℤ) : ℚ)

/-- `max(1, int(x))` (topic frequency). -/
def sanFreq (q : ℚ) : ℚ := ((max 1 (pyInt q) : ℤ) : ℚ)

/-- `max(0, int(x))` (keyword position, weak-section start/end). -/
def sanPos (q : ℚ) : ℚ := ((max 0 (pyInt q) : ℤ) : ℚ)

/-- `sentiment["scores"]` sub-dict. -/
structure SentimentScores where
  positive : Option ℚ
  negative : Option ℚ
  neutral : Option ℚ
deriving DecidableEq

/-- `response_data["sentiment"]`; `typeTag` stands for the untouched key
`type`. -/
structure SentimentData where
  typeTag : Option String
  confidence : Option ℚ
  scores : Option SentimentScores
deriving DecidableEq

/-- One element of `response_data["topics"]`. -/
structure TopicItem where
  topic : Option String
  relevance : Option ℚ
  frequency : Option ℚ
deriving DecidableEq

/-- One element of `response_data["keywords"]` (both schemas). -/
structure KeywordItem where
  keyword : Option String
  relevance : Option ℚ
  context : Option String
  position : Option ℚ
  similarity : Option ℚ
deriving DecidableEq

/-- The `blog_analysis` response shape. -/
structure BlogAnalysisData where
  sentiment : Option SentimentData
  topics : Option (List TopicItem)
  keywords : Option (List KeywordItem)
  readability : Option ℚ
deriving DecidableEq

/-- One element of `response_data["weak_sections"]`; `stop` stands for the
Python key `end` (a Lean keyword). -/
structure SectionItem where
  start : Option ℚ
  stop : Option ℚ
  issue : Option String
  severity : Option String
  suggestion : Option String
  confidence : Option ℚ
deriving DecidableEq

/-- `response_data["scores"]` of the `keyword_recommendations` schema. -/
structure ScoresItem where
  overall : Option ℚ
  readability : Option ℚ
  relevance : Option ℚ
  engagement : Option ℚ
  seo : Option ℚ
deriving DecidableEq

/-- The `keyword_recommendations` response shape. -/
structure KeywordRecsData where
  keywords : Option (List KeywordItem)
  weak_sections : Option (List SectionItem)
  scores : Option ScoresItem
deriving DecidableEq

/-- `response_data["breakdown"]` of the `content_scoring` schema; `struct`
stands for the Python key `structure` (a Lean keyword). -/
structure BreakdownItem where
  keyword_relevance : Option ℚ
  readability : Option ℚ
  user_alignment : Option ℚ
  struct : Option ℚ
  seo : Option ℚ
  engagement : Option ℚ
deriving DecidableEq

/-- The `content_scoring` response shape. -/
structure ContentScoringData where
  overall_score : Option ℚ
  breakdown : Option BreakdownItem
  recommendations : Option (List String)
deriving DecidableEq

/-- A response value together with its schema key. -/
inductive ResponseData where
  | blogAnalysis (d : BlogAnalysisData)
  | keywordRecommendations (d : KeywordRecsData)
  | contentScoring (d : ContentScoringData)
deriving DecidableEq

/-- Lines 315–318: clamp each of the three sentiment scores present. -/
def sanitizeSentimentScores (sc : SentimentScores) : SentimentScores :=
  { sc with positive := sc.positive.map sanProb,
            negative := sc.negative.map sanProb,
            neutral := sc.neutral.map sanProb }

/-- Lines 310–318: clamp `confidence` and the nested scores when present. -/
def sanitizeSentiment (s : SentimentData) : SentimentData :=
  { s with confidence := s.confidence.map sanProb,
           scores := s.scores.map sanitizeSentimentScores }

/-- Lines 323–327: clamp `relevance`, floor `frequency` at 1. -/
def sanitizeTopicItem (t : TopicItem) : TopicItem :=
  { t with relevance := t.relevance.map sanProb,
           frequency := t.frequency.map sanFreq }

/-- Lines 332–336 (`blog_analysis` keywords: no `position` handling). -/
def sanitizeKeywordItemBlog (k : KeywordItem) : KeywordItem :=
  { k with relevance := k.relevance.map sanProb,
           similarity := k.similarity.map sanProb }

/-- Lines 346–352 (`keyword_recommendations` keywords, with `position`). -/
def sanitizeKeywordItemRecs (k : KeywordItem) : KeywordItem :=
  { k with relevance := k.relevance.map sanProb,
           similarity := k.similarity.map sanProb,
           position := k.position.map sanPos }

/-- Lines 355–362: weak sections (no truncation). -/
def sanitizeSectionItem (s : SectionItem) : SectionItem :=
  { s with confidence := s.confidence.map sanProb,
           start := s.start.map sanPos,
           stop := s.stop.map sanPos }

/-- Lines 364–368: the five 0–100 scores. -/
def sanitizeScoresItem (s : ScoresItem) : ScoresItem :=
  { s with overall := s.overall.map sanScore100,
           readability := s.readability.map sanScore100,
           relevance := s.relevance.map sanScore100,
           engagement := s.engagement.map sanScore100,
           seo := s.seo.map sanScore100 }

/-- Lines 376–379: the six 0–100 breakdown scores. -/
def sanitizeBreakdownItem (b : BreakdownItem) : BreakdownItem :=
  { b with keyword_relevance := b.keyword_relevance.map sanScore100,
           readability := b.readability.map sanScore100,
           user_alignment := b.user_alignment.map sanScore100,
           struct := b.struct.map sanScore100,
           seo := b.seo.map sanScore100,
           engagement := b.engagement.map sanScore100 }

/-- The `blog_analysis` branch (lines 308–340): topics truncated to 5,
keywords to 10, readability clamped to an `int` in 0–100. -/
def sanitizeBlogAnalysis (d : BlogAnalysisData) : BlogAnalysisData :=
  { d with sentiment := d.sentiment.map sanitizeSentiment,
           topics := d.topics.map (fun l => (l.take 5).map sanitizeTopicItem),
           keywords := d.keywords.map (fun l => (l.take 10).map sanitizeKeywordItemBlog),
           readability := d.readability.map sanScore100 }

/-- The `keyword_recommendations` branch (lines 342–368). -/
def sanitizeKeywordRecs (d : KeywordRecsData) : KeywordRecsData :=
  { d with keywords := d.keywords.map (fun l => (l.take 10).map sanitizeKeywordItemRecs),
           weak_sections := d.weak_sections.map (fun l => l.map sanitizeSectionItem),
           scores := d.scores.map sanitizeScoresItem }

/-- The `content_scoring` branch (lines 370–383). -/
def sanitizeContentScoring (d : ContentScoringData) : ContentScoringData :=
  { d with overall_score := d.overall_score.map sanScore100,
           breakdown := d.breakdown.map sanitizeBreakdownItem,
           recommendations := d.recommendations.map (fun l => l.take 5) }

/-- `_validate_and_sanitize_response(response_data, schema_key)`: dispatch on
the schema key. -/
def validate_and_sanitize_response : ResponseData → ResponseData
  | .blogAnalysis d => .blogAnalysis (sanitizeBlogAnalysis d)
  | .keywordRecommendations d => .keywordRecommendations (sanitizeKeywordRecs d)
  | .contentScoring d => .contentScoring (sanitizeContentScoring d)

/-- An out-of-contract `content_scoring` response for the C9 witness. -/
def c9_example : ResponseData :=
  .contentScoring
    { overall_score := some 250, breakdown := none,
      recommendations := some ["a", "b", "c", "d", "e", "f"] }

/-! ## Supporting lemmas -/

theorem ratFloor_eq_floor (q : ℚ) : ratFloor q = ⌊q⌋ := Rat.floor_def.symm

theorem pyRound2_eq (q : ℚ) : pyRound2 q = ((⌊q * 100 + 1/2⌋ : ℤ) : ℚ) / 100 := by
  rw [pyRound2, ratFloor_eq_floor]

/-- Rounding to two decimals moves a value by at most half a cent. -/
theorem pyRound2_close (q : ℚ) : |pyRound2 q - q| ≤ 1/200 := by
  rw [pyRound2_eq, abs_le]
  have h1 : ((⌊q * 100 + 1/2⌋ : ℤ) : ℚ) ≤ q * 100 + 1/2 := Int.floor_le _
  have h2 : q * 100 + 1/2 < ((⌊q * 100 + 1/2⌋ : ℤ) : ℚ) + 1 := Int.lt_floor_add_one _
  constructor <;> [linarith; linarith]

/-- The 20%-change test of `_content_changed_significantly`, rephrased over ℕ:
with a zero previous length any nonempty draft counts as changed, matching
`/ max(previous_length, 1)`. -/
theorem change_test_iff (cur prev : ℕ) :
    |(cur : ℚ) - (prev : ℚ)| / max (prev : ℚ) 1 > 1/5 ↔
      prev < 5 * ((cur : ℤ) - (prev : ℤ)).natAbs := by
  have habs : |(cur : ℚ) - (prev : ℚ)| = (((cur : ℤ) - (prev : ℤ)).natAbs : ℚ) := by
    rw [Int.cast_natAbs]
    push_cast
    rfl
  rw [habs]
  rcases Nat.eq_zero_or_pos prev with h0 | hpos
  · subst h0
    simp only [Nat.cast_zero, max_eq_right (by norm_num : (0:ℚ) ≤ 1), div_one]
    constructor
    · intro h
      have : 0 < (((cur : ℤ) - 0).natAbs : ℚ) := lt_trans (by norm_num) h
      have : 0 < ((cur : ℤ) - 0).natAbs := by exact_mod_cast this
      omega
    · intro h
      have h1 : 1 ≤ ((cur : ℤ) - 0).natAbs := by omega
      have : (1 : ℚ) ≤ (((cur : ℤ) - 0).natAbs : ℚ) := by exact_mod_cast h1
      linarith
  · have hmax : max (prev : ℚ) 1 = (prev : ℚ) :=
      max_eq_left (by exact_mod_cast hpos)
    rw [hmax, gt_iff_lt, div_lt_div_iff₀ (by norm_num) (by exact_mod_cast hpos)]
    constructor
    · intro h
      have : (prev : ℚ) < 5 * (((cur : ℤ) - (prev : ℤ)).natAbs : ℚ) := by linarith
      exact_mod_cast this
    · intro h
      have : (prev : ℚ) < 5 * (((cur : ℤ) - (prev : ℤ)).natAbs : ℚ) := by exact_mod_cast h
      linarith

theorem content_changed_iff (s : AgentState) :
    content_changed_significantly s = true ↔
      2 ≤ s.analysis_history.length ∧
      ∃ e, s.analysis_history.get? (s.analysis_history.length - 2) = some e ∧
        e.draft_length < 5 * ((s.current_draft.length : ℤ) - (e.draft_length : ℤ)).natAbs := by
  unfold content_changed_significantly
  by_cases hlen : s.analysis_history.length < 2
  · simp only [hlen, if_true]
    constructor
    · intro h; exact absurd h (by simp)
    · intro ⟨h2, _⟩; omega
  · have h2 : 2 ≤ s.analysis_history.length := by omega
    have hidx : s.analysis_history.length - 2 < s.analysis_history.length := by omega
    obtain ⟨e, he⟩ : ∃ e, s.analysis_history.get? (s.analysis_history.length - 2) = some e := by
      rw [List.get?_eq_get hidx]; exact ⟨_, rfl⟩
    simp only [hlen, if_false, he, Option.map_some', Option.getD_some, decide_eq_true_eq]
    rw [change_test_iff]
    constructor
    · intro h; exact ⟨h2, e, rfl, h⟩
    · intro ⟨_, e', he', h⟩
      injection he' with hee
      rw [hee]
      exact h

theorem pyInt_intCast (n : ℤ) : pyInt ((n : ℤ) : ℚ) = n := by
  unfold pyInt
  simp only [ratFloor_eq_floor]
  split_ifs with h
  · exact Int.floor_intCast n
  · have hcast : (-(n : ℚ)) = ((-n : ℤ) : ℚ) := by push_cast; ring
    rw [hcast, Int.floor_intCast]
    ring

theorem sanProb_idem (q : ℚ) : sanProb (sanProb q) = sanProb q := by
  unfold sanProb
  have h1 : max 0 (min 1 q) ≤ 1 := max_le (by norm_num) (min_le_left _ _)
  have h0 : (0 : ℚ) ≤ max 0 (min 1 q) := le_max_left _ _
  rw [min_eq_right h1, max_eq_right h0]

theorem sanScore100_idem (q : ℚ) : sanScore100 (sanScore100 q) = sanScore100 q := by
  unfold sanScore100
  rw [pyInt_intCast]
  have h1 : max 0 (min 100 (pyInt q)) ≤ (100 : ℤ) :=
    max_le (by norm_num) (min_le_left _ _)
  have h0 : (0 : ℤ) ≤ max 0 (min 100 (pyInt q)) := le_max_left _ _
  rw [min_eq_right h1, max_eq_right h0]

theorem sanFreq_idem (q : ℚ) : sanFreq (sanFreq q) = sanFreq q := by
  unfold sanFreq
  rw [pyInt_intCast]
  have h1 : (1 : ℤ) ≤ max 1 (pyInt q) := le_max_left _ _
  rw [max_eq_right h1]

theorem sanPos_idem (q : ℚ) : sanPos (sanPos q) = sanPos q := by
  unfold sanPos
  rw [pyInt_intCast]
  have h0 : (0 : ℤ) ≤ max 0 (pyInt q) := le_max_left _ _
  rw [max_eq_right h0]

theorem omap_idem {γ : Type} {g : γ → γ} (hg : ∀ x, g (g x) = g x) (o : Option γ) :
    (o.map g).map g = o.map g := by
  cases o <;> simp [hg]

theorem lmap_idem {γ : Type} {g : γ → γ} (hg : ∀ x, g (g x) = g x) (l : List γ) :
    (l.map g).map g = l.map g := by
  rw [List.map_map]
  exact List.map_congr_left (fun a _ => hg a)

theorem takemap_idem {γ : Type} {g : γ → γ} (hg : ∀ x, g (g x) = g x) (n : ℕ)
    (l : List γ) :
    ((((l.take n).map g).take n).map g) = (l.take n).map g := by
  rw [List.take_of_length_le (by simp)]
  exact lmap_idem hg _

theorem sanitizeSentimentScores_idem (sc : SentimentScores) :
    sanitizeSentimentScores (sanitizeSentimentScores sc) = sanitizeSentimentScores sc := by
  cases sc
  simp [sanitizeSentimentScores, omap_idem sanProb_idem]

theorem sanitizeSentiment_idem (s : SentimentData) :
    sanitizeSentiment (sanitizeSentiment s) = sanitizeSentiment s := by
  cases s
  simp [sanitizeSentiment, omap_idem sanProb_idem, omap_idem sanitizeSentimentScores_idem]

theorem sanitizeTopicItem_idem (t : TopicItem) :
    sanitizeTopicItem (sanitizeTopicItem t) = sanitizeTopicItem t := by
  cases t
  simp [sanitizeTopicItem, omap_idem sanProb_idem, omap_idem sanFreq_idem]

theorem sanitizeKeywordItemBlog_idem (k : KeywordItem) :
    sanitizeKeywordItemBlog (sanitizeKeywordItemBlog k) = sanitizeKeywordItemBlog k := by
  cases k
  simp [sanitizeKeywordItemBlog, omap_idem sanProb_idem]

theorem sanitizeKeywordItemRecs_idem (k : KeywordItem) :
    sanitizeKeywordItemRecs (sanitizeKeywordItemRecs k) = sanitizeKeywordItemRecs k := by
  cases k
  simp [sanitizeKeywordItemRecs, omap_idem sanProb_idem, omap_idem sanPos_idem]

theorem sanitizeSectionItem_idem (s : SectionItem) :
    sanitizeSectionItem (sanitizeSectionItem s) = sanitizeSectionItem s := by
  cases s
  simp [sanitizeSectionItem, omap_idem sanProb_idem, omap_idem sanPos_idem]

theorem sanitizeScoresItem_idem (s : ScoresItem) :
    sanitizeScoresItem (sanitizeScoresItem s) = sanitizeScoresItem s := by
  cases s
  simp [sanitizeScoresItem, omap_idem sanScore100_idem]

theorem sanitizeBreakdownItem_idem (b : BreakdownItem) :
    sanitizeBreakdownItem (sanitizeBreakdownItem b) = sanitizeBreakdownItem b := by
  cases b
  simp [sanitizeBreakdownItem, omap_idem sanScore100_idem]

theorem sanitizeBlogAnalysis_idem (d : BlogAnalysisData) :
    sanitizeBlogAnalysis (sanitizeBlogAnalysis d) = sanitizeBlogAnalysis d := by
  cases d
  simp only [sanitizeBlogAnalysis]
  congr 1
  · exact omap_idem sanitizeSentiment_idem _
  · exact omap_idem (takemap_idem sanitizeTopicItem_idem 5) _
  · exact omap_idem (takemap_idem sanitizeKeywordItemBlog_idem 10) _
  · exact omap_idem sanScore100_idem _

theorem sanitizeKeywordRecs_idem (d : KeywordRecsData) :
    sanitizeKeywordRecs (sanitizeKeywordRecs d) = sanitizeKeywordRecs d := by
  cases d
  simp only [sanitizeKeywordRecs]
  congr 1
  · exact omap_idem (takemap_idem sanitizeKeywordItemRecs_idem 10) _
  · exact omap_idem (lmap_idem sanitizeSectionItem_idem) _
  · exact omap_idem sanitizeScoresItem_idem _

theorem take_take_idem {γ : Type} (n : ℕ) (l : List γ) :
    (l.take n).take n = l.take n := by
  rw [List.take_take]
  simp

theorem sanitizeContentScoring_idem (d : ContentScoringData) :
    sanitizeContentScoring (sanitizeContentScoring d) = sanitizeContentScoring d := by
  cases d
  simp only [sanitizeContentScoring]
  congr 1
  · exact omap_idem sanScore100_idem _
  · exact omap_idem sanitizeBreakdownItem_idem _
  · exact omap_idem (take_take_idem 5) _

theorem dictGet_dictSet_same {β : Type} :
    ∀ (d : List (String × β)) (key : String) (v : β),
      dictGet (dictSet d key v) key = some v := by
  intro d key v
  induction d with
  | nil => simp [dictGet, dictSet]
  | cons hd t ih =>
    obtain ⟨k', v'⟩ := hd
    cases hk : (k' == key) with
    | true => simp [dictSet, hk, dictGet]
    | false =>
      simp only [dictSet, hk, Bool.false_eq_true, if_false]
      simp only [dictGet, hk, Bool.false_eq_true, if_false]
      exact ih

theorem dictGet_dictDel_same {β : Type} :
    ∀ (d : List (String × β)) (key : String), dictGet (dictDel d key) key = none := by
  intro d key
  induction d with
  | nil => rfl
  | cons hd t ih =>
    obtain ⟨k', v'⟩ := hd
    cases hk : (k' == key) with
    | true =>
      simp only [dictDel, List.filter_cons, hk, Bool.not_true, Bool.false_eq_true, if_false]
      exact ih
    | false =>
      simp only [dictDel, List.filter_cons, hk, Bool.not_false, if_true]
      simp only [dictGet, hk, Bool.false_eq_true, if_false]
      exact ih

theorem apply_updates_score_history (session_id : String) :
    ∀ (updates : List (String × FinalResponse × ℚ)) (store : SessionStore),
      (∃ session, dictGet store session_id = some session ∧ session.score_history = []) →
      ∃ session, dictGet (apply_updates session_id store updates) session_id = some session ∧
        session.score_history = [] := by
  intro updates
  induction updates with
  | nil => intro store h; exact h
  | cons u rest ih =>
    intro store h
    obtain ⟨session, hget, hsc⟩ := h
    obtain ⟨draft, response, now⟩ := u
    unfold apply_updates update_draft
    rw [hget]
    exact ih _ ⟨_, dictGet_dictSet_same _ _ _, hsc⟩

theorem pySplit_eq_none {s : List Char} (h : findSub sentence_sep s = none) :
    pySplit s = [s] := by
  rw [pySplit.eq_def, h]

theorem pySplit_eq_some {s : List Char} {n : ℕ} (h : findSub sentence_sep s = some n) :
    pySplit s = s.take n :: pySplit (s.drop (n + 2)) := by
  rw [pySplit.eq_def, h]

/-- A found index is a genuine leftmost occurrence. -/
theorem findSub_some_spec :
    ∀ (needle hay : List Char) (n : ℕ), findSub needle hay = some n →
      needle.isPrefixOf (hay.drop n) = true ∧
      ∀ m, m < n → needle.isPrefixOf (hay.drop m) = false := by
  intro needle hay
  induction hay with
  | nil =>
    intro n h
    unfold findSub at h
    by_cases hpre : needle.isPrefixOf ([] : List Char) = true
    · rw [if_pos hpre] at h
      injection h with h0
      subst h0
      exact ⟨hpre, fun m hm => absurd hm (by omega)⟩
    · rw [if_neg hpre] at h
      exact absurd h (by simp)
  | cons c t ih =>
    intro n h
    unfold findSub at h
    by_cases hpre : needle.isPrefixOf (c :: t) = true
    · rw [if_pos hpre] at h
      injection h with h0
      subst h0
      exact ⟨hpre, fun m hm => absurd hm (by omega)⟩
    · rw [if_neg hpre] at h
      obtain ⟨n', hn', rfl⟩ : ∃ n', findSub needle t = some n' ∧ n' + 1 = n := by
        cases hfs : findSub needle t with
        | none => rw [hfs] at h; exact absurd h (by simp)
        | some n' => rw [hfs] at h; injection h with h0; exact ⟨n', rfl, h0⟩
      obtain ⟨h1, h2⟩ := ih n' hn'
      refine ⟨h1, ?_⟩
      intro m hm
      match m with
      | 0 => simpa using Bool.eq_false_iff.mpr (fun hx => hpre (by simpa using hx))
      | m' + 1 => exact h2 m' (by omega)

/-- If the needle occurs somewhere, `findSub` finds an occurrence. -/
theorem findSub_complete :
    ∀ (needle hay : List Char) (k : ℕ), needle.isPrefixOf (hay.drop k) = true →
      ∃ n, findSub needle hay = some n := by
  intro needle hay
  induction hay with
  | nil =>
    intro k hk
    rw [List.drop_nil] at hk
    exact ⟨0, by unfold findSub; rw [if_pos hk]⟩
  | cons c t ih =>
    intro k hk
    by_cases hpre : needle.isPrefixOf (c :: t) = true
    · exact ⟨0, by unfold findSub; rw [if_pos hpre]⟩
    · match k with
      | 0 =>
        rw [List.drop_zero] at hk
        exact absurd hk hpre
      | k' + 1 =>
        rw [List.drop_succ_cons] at hk
        obtain ⟨n', hn'⟩ := ih k' hk
        exact ⟨n' + 1, by unfold findSub; rw [if_neg hpre, hn']; rfl⟩

/-- Every segment `split` produces occurs in the original text. -/
theorem mem_pySplit_prefix :
    ∀ (content sentence : List Char), sentence ∈ pySplit content →
      ∃ k, sentence.isPrefixOf (content.drop k) = true := by
  intro content
  induction content using pySplit.induct with
  | case1 s hnone =>
    intro sentence hmem
    rw [pySplit_eq_none hnone] at hmem
    rw [List.mem_singleton] at hmem
    subst hmem
    exact ⟨0, by rw [List.drop_zero]; exact List.isPrefixOf_iff_prefix.mpr (List.prefix_refl _)⟩
  | case2 s n hsome ih =>
    intro sentence hmem
    rw [pySplit_eq_some hsome] at hmem
    rw [List.mem_cons] at hmem
    rcases hmem with rfl | hmem
    · exact ⟨0, by rw [List.drop_zero]
                   exact List.isPrefixOf_iff_prefix.mpr (List.take_prefix n s)⟩
    · obtain ⟨k', hk'⟩ := ih sentence hmem
      refine ⟨n + 2 + k', ?_⟩
      rw [← List.drop_drop]
      exact hk'

/-- A flag-and-append `foldl` is a `filter` followed by a `map`. -/
theorem foldl_filter_map {γ δ : Type} (p : γ → Prop) [DecidablePred p] (g : γ → δ) :
    ∀ (l : List γ) (acc : List δ),
      l.foldl (fun acc x => if p x then acc ++ [g x] else acc) acc =
        acc ++ (l.filter (fun x => decide (p x))).map g := by
  intro l
  induction l with
  | nil => intro acc; simp
  | cons hd tl ih =>
    intro acc
    by_cases hp : p hd
    · simp only [List.foldl_cons, if_pos hp, List.filter_cons]
      rw [ih]
      simp [hp]
    · simp only [List.foldl_cons, if_neg hp, List.filter_cons]
      rw [ih]
      simp [hp]

section RetryLemmas

variable {ε α : Type} (retryable : ε → Bool) (f : ℕ → Except ε α)

theorem retryLoop_attempts_le :
    ∀ remaining attempt,
      attemptsOf (retryLoop retryable f remaining attempt) ≤ attempt + remaining + 1 := by
  intro remaining
  induction remaining with
  | zero =>
    intro attempt
    unfold retryLoop
    cases hf : f attempt with
    | ok a => simp [attemptsOf]
    | error e =>
      by_cases hr : retryable e = true
      · simp [hr, attemptsOf]
      · simp [hr, attemptsOf]
  | succ r ih =>
    intro attempt
    unfold retryLoop
    cases hf : f attempt with
    | ok a => simp [attemptsOf]
    | error e =>
      by_cases hr : retryable e = true
      · simp only [hr, if_true]
        have := ih (attempt + 1)
        omega
      · simp [hr, attemptsOf]

theorem retryLoop_ok :
    ∀ (k : ℕ) (remaining attempt : ℕ) (a : α), k ≤ remaining →
      f (attempt + k) = .ok a →
      (∀ j, j < k → ∃ e, f (attempt + j) = .error e ∧ retryable e = true) →
      retryLoop retryable f remaining attempt = .ok a (attempt + k + 1) (attempt + k) := by
  intro k
  induction k with
  | zero =>
    intro remaining attempt a _ hf _
    unfold retryLoop
    rw [Nat.add_zero] at hf
    rw [hf]
    rfl
  | succ k ih =>
    intro remaining attempt a hk hf hfail
    obtain ⟨e0, hf0, hr0⟩ := hfail 0 (Nat.succ_pos k)
    rw [Nat.add_zero] at hf0
    obtain ⟨r, rfl⟩ : ∃ r, remaining = r + 1 := ⟨remaining - 1, by omega⟩
    unfold retryLoop
    rw [hf0]
    simp only [hr0, if_true]
    have hshift : ∀ j, j < k → ∃ e, f (attempt + 1 + j) = .error e ∧ retryable e = true := by
      intro j hj
      obtain ⟨e, he, hr⟩ := hfail (j + 1) (by omega)
      exact ⟨e, by rw [show attempt + 1 + j = attempt + (j + 1) by omega]; exact he, hr⟩
    have := ih r (attempt + 1) a (by omega)
      (by rw [show attempt + 1 + k = attempt + (k + 1) by omega]; exact hf) hshift
    rw [this]
    congr 1 <;> omega

theorem retryLoop_exhausted_elim :
    ∀ (remaining attempt : ℕ) (e : ε) (n sl : ℕ),
      retryLoop retryable f remaining attempt = .exhausted e n sl →
      n = attempt + remaining + 1 ∧ sl = attempt + remaining ∧
      f (attempt + remaining) = .error e ∧
      ∀ i, i ≤ remaining → ∃ ei, f (attempt + i) = .error ei ∧ retryable ei = true := by
  intro remaining
  induction remaining with
  | zero =>
    intro attempt e n sl h
    unfold retryLoop at h
    cases hf : f attempt with
    | ok a => rw [hf] at h; exact absurd h (by simp)
    | error e' =>
      rw [hf] at h
      by_cases hr : retryable e'
      · simp only [hr, if_true] at h
        injection h with h1 h2 h3
        subst h1; subst h2; subst h3
        refine ⟨rfl, rfl, by rw [Nat.add_zero]; exact hf, ?_⟩
        intro i hi
        interval_cases i
        exact ⟨e', by rw [Nat.add_zero]; exact hf, hr⟩
      · simp only [hr, if_false] at h
        exact absurd h (by simp)
  | succ r ih =>
    intro attempt e n sl h
    unfold retryLoop at h
    cases hf : f attempt with
    | ok a => rw [hf] at h; exact absurd h (by simp)
    | error e' =>
      rw [hf] at h
      by_cases hr : retryable e'
      · simp only [hr, if_true] at h
        obtain ⟨hn, hsl, hlast, hall⟩ := ih (attempt + 1) e n sl h
        refine ⟨by omega, by omega,
          by rw [show attempt + (r + 1) = attempt + 1 + r by omega]; exact hlast, ?_⟩
        intro i hi
        match i with
        | 0 => exact ⟨e', by rw [Nat.add_zero]; exact hf, hr⟩
        | i' + 1 =>
          obtain ⟨ei, hei, hri⟩ := hall i' (by omega)
          exact ⟨ei, by rw [show attempt + (i' + 1) = attempt + 1 + i' by omega]; exact hei, hri⟩
      · simp only [hr, if_false] at h
        exact absurd h (by simp)

theorem retryLoop_exhausted_intro :
    ∀ (remaining attempt : ℕ) (e : ε),
      (∀ i, i ≤ remaining → ∃ ei, f (attempt + i) = .error ei ∧ retryable ei = true) →
      f (attempt + remaining) = .error e →
      retryLoop retryable f remaining attempt =
        .exhausted e (attempt + remaining + 1) (attempt + remaining) := by
  intro remaining
  induction remaining with
  | zero =>
    intro attempt e hall hlast
    rw [Nat.add_zero] at hlast
    obtain ⟨e0, he0, hr0⟩ := hall 0 (Nat.le_refl 0)
    rw [Nat.add_zero] at he0
    have : e0 = e := by rw [hlast] at he0; injection he0 with h; exact h.symm
    subst this
    unfold retryLoop
    rw [hlast]
    simp [hr0]
  | succ r ih =>
    intro attempt e hall hlast
    obtain ⟨e0, he0, hr0⟩ := hall 0 (Nat.zero_le _)
    rw [Nat.add_zero] at he0
    unfold retryLoop
    rw [he0]
    simp only [hr0, if_true]
    have hall' : ∀ i, i ≤ r → ∃ ei, f (attempt + 1 + i) = .error ei ∧ retryable ei = true := by
      intro i hi
      obtain ⟨ei, hei, hri⟩ := hall (i + 1) (by omega)
      exact ⟨ei, by rw [show attempt + 1 + i = attempt + (i + 1) by omega]; exact hei, hri⟩
    have := ih (attempt + 1) e hall'
      (by rw [show attempt + 1 + r = attempt + (r + 1) by omega]; exact hlast)
    rw [this]
    congr 1 <;> omega

end RetryLemmas

/-! ## Claim theorems -/

/-- C1: refuted on the code — the user-profile-alignment sub-score computed by
`calculate_comprehensive_score` via `_calculate_user_profile_alignment` can
exceed 100: the "casual" branch of `_calculate_style_alignment` returns
`max(0, 50 + casual_count*8 - formal_count*5)` with seven casual indicators and
no upper clamp, reaching 106.  `ScoreBreakdown`'s own `le=100` field bound then
makes `calculate_comprehensive_score` raise instead of returning a score. -/
theorem user_profile_alignment_exceeds_100 :
    calculate_user_profile_alignment c1_content (some c1_profile) = 106 ∧
    calculate_style_alignment c1_content "casual" = 106 ∧
    ¬ calculate_user_profile_alignment c1_content (some c1_profile) ≤ 100 := by
  have hcas : countIndicators (pyLower c1_content) casual_branch_casual_indicators = 7 := by
    decide
  have hfor : countIndicators (pyLower c1_content) casual_branch_formal_indicators = 0 := by
    decide
  have hstyle : calculate_style_alignment c1_content "casual" = 106 := by
    unfold calculate_style_alignment
    rw [if_neg (by decide : ¬("casual" = "formal")), if_pos rfl, hcas, hfor]
    norm_num
  have hmain : calculate_user_profile_alignment c1_content (some c1_profile) = 106 := by
    unfold calculate_user_profile_alignment c1_profile
    simp only [ne_eq, not_true_eq_false, if_false, ite_false, List.nil_append, hstyle]
    rw [pyRound2_eq]
    norm_num
  exact ⟨hmain, hstyle, by rw [hmain]; norm_num⟩

/-- C2: `_should_iterate` returns `"continue"` exactly when the iteration
count is below 2, at least two analysis-history entries exist, and the draft
length differs from the second-most-recent entry's recorded length by more
than 20% of it (`abs(cur - prev) / max(prev, 1) > 0.2`, i.e. `prev < 5·|cur -
prev|`); in every other case it returns `"end"`. -/
theorem should_iterate_characterization (s : AgentState) :
    (should_iterate s = "continue" ↔
      s.iteration_count < 2 ∧ 2 ≤ s.analysis_history.length ∧
      ∃ e, s.analysis_history.get? (s.analysis_history.length - 2) = some e ∧
        e.draft_length < 5 * ((s.current_draft.length : ℤ) - (e.draft_length : ℤ)).natAbs) ∧
    (should_iterate s = "continue" ∨ should_iterate s = "end") := by
  have hiff : should_iterate s = "continue" ↔
      (s.iteration_count < 2 ∧ content_changed_significantly s = true) := by
    unfold should_iterate
    by_cases h1 : s.iteration_count < 2
    · rw [if_pos h1]
      by_cases h2 : content_changed_significantly s = true
      · rw [if_pos h2]
        exact iff_of_true rfl ⟨h1, h2⟩
      · rw [if_neg h2]
        exact iff_of_false (by decide) fun h => h2 h.2
    · rw [if_neg h1]
      exact iff_of_false (by decide) fun h => h1 h.1
  constructor
  · rw [hiff, content_changed_iff]
  · by_cases h : should_iterate s = "continue"
    · exact Or.inl h
    · refine Or.inr ?_
      unfold should_iterate
      by_cases h1 : s.iteration_count < 2
      · rw [if_pos h1]
        by_cases h2 : content_changed_significantly s = true
        · exact absurd (hiff.mpr ⟨h1, h2⟩) h
        · rw [if_neg h2]
      · rw [if_neg h1]

/-- C2 witness: the characterization applied at a concrete run state. -/
theorem should_iterate_characterization_witness :
    should_iterate c2_state = "continue" :=
  (should_iterate_characterization c2_state).1.mpr
    ⟨by decide, by decide, c2_entry 8, by decide, by decide⟩

/-- C3 counterexample: on a failing analyzer call, `_analyze_draft_node` does
not record an empty analysis entry — the claim's `history.length + 1` is
refuted at a concrete run state, whose history stays empty. -/
theorem analyze_draft_failure_appends_nothing :
    ¬ ((analyze_draft_node (Except.error AnalyzerError.failure) "t1" c3_state).analysis_history.length
        = c3_state.analysis_history.length + 1) := by
  decide

/-- C3 (amended): `_analyze_draft_node` calls `recommend_keywords` once,
directly (no `retry_with_exponential_backoff` involvement); on success it
appends `{timestamp, analysis, draft_length}` to the analysis history, and on
an exception it catches it and returns the state unchanged, so the workflow
proceeds to the next stage with no entry (empty or otherwise) recorded. -/
theorem analyze_draft_node_behaviour :
    (∀ (e : AnalyzerError) (now : String) (s : AgentState),
      analyze_draft_node (Except.error e) now s = s) ∧
    (∀ (a : KeywordRecResult) (now : String) (s : AgentState),
      (analyze_draft_node (Except.ok a) now s).analysis_history =
        s.analysis_history ++
          [{ timestamp := now, analysis := a,
             draft_length := s.current_draft.length, weak_sections := none }]) :=
  ⟨fun _ _ _ => rfl, fun _ _ _ => rfl⟩

/-- C3 witness: the amended behaviour at a concrete failure and state. -/
theorem analyze_draft_node_behaviour_witness :
    analyze_draft_node (Except.error AnalyzerError.failure) "t1" c2_state = c2_state :=
  analyze_draft_node_behaviour.1 AnalyzerError.failure "t1" c2_state

/-- C4: evidence of the `'seo'` key slip.  `_score_content_node` stores the
breakdown under the key `seo_optimization`, so `_contextual_refinement`'s
lookup `current_score.get('seo', 70)` always returns the default 70 and the
×1.2 SEO boost can never fire on a workflow score: with SEO sub-score 50 (< 60)
and the keyword "search", the relevance stays 0.5 instead of becoming 0.6. -/
theorem seo_boost_never_fires :
    (∀ b : ScoreBreakdown, pyDictGet (breakdownPairs b) "seo" 70 = 70) ∧
    (∀ b : ScoreBreakdown, ∀ s : AgentState,
      pyDictGet ((score_content_node b s).current_score) "seo" 70 = 70) ∧
    pyDictGet (breakdownPairs c4_breakdown) "seo_optimization" 70 = 50 ∧
    pyDictGet (breakdownPairs c4_breakdown) "seo_optimization" 70 < 60 ∧
    contextual_refinement [c4_keyword] "draft" 0 (breakdownPairs c4_breakdown) =
      [{ keyword := some "search", relevance_score := some (1/2) }] := by
  refine ⟨fun b => rfl, fun b s => rfl, rfl,
    by rw [show pyDictGet (breakdownPairs c4_breakdown) "seo_optimization" 70 = 50 from rfl]
       norm_num, ?_⟩
  have hread : pyDictGet (breakdownPairs c4_breakdown) "readability" 70 = 70 := rfl
  have hseo : pyDictGet (breakdownPairs c4_breakdown) "seo" 70 = 70 := rfl
  unfold contextual_refinement
  rw [List.map_singleton, hread, hseo]
  norm_num [c4_keyword, min_def]

/-- C4 witness: the universally quantified part applied at the concrete
breakdown of the failing input. -/
theorem seo_boost_never_fires_witness :
    pyDictGet (breakdownPairs c4_breakdown) "seo" 70 = 70 :=
  seo_boost_never_fires.1 c4_breakdown

/-- C5: the reported overall score is `round(weighted_sum, 2)`, hence within
1/200 of the exact fixed-weight sum; the six weights sum to 1; and the
weighted sum is exactly 0.25/0.20/0.15/0.15/0.15/0.10 over the six
sub-scores. -/
theorem overall_score_weighted_sum (b : ScoreBreakdown) :
    |overall_score_result b - weighted_overall b| ≤ 1/200 ∧
    (scoring_weights.map (fun p => p.2)).sum = 1 ∧
    weighted_overall b =
      b.keyword_relevance * (25/100) + b.readability * (20/100) +
      b.user_profile_alignment * (15/100) + b.content_structure * (15/100) +
      b.seo_optimization * (15/100) + b.engagement_potential * (10/100) := by
  refine ⟨?_, by norm_num [scoring_weights], ?_⟩
  · exact pyRound2_close (weighted_overall b)
  · show (scoring_weights.map (fun p => breakdownField b p.1 * p.2)).sum = _
    simp only [scoring_weights, List.map_cons, List.map_nil, List.sum_cons, List.sum_nil,
      show breakdownField b "keyword_relevance" = b.keyword_relevance from rfl,
      show breakdownField b "readability" = b.readability from rfl,
      show breakdownField b "user_profile_alignment" = b.user_profile_alignment from rfl,
      show breakdownField b "content_structure" = b.content_structure from rfl,
      show breakdownField b "seo_optimization" = b.seo_optimization from rfl,
      show breakdownField b "engagement_potential" = b.engagement_potential from rfl]
    ring

/-- C5 witness: the theorem applied at the all-fifties breakdown. -/
theorem overall_score_weighted_sum_witness :
    |overall_score_result c5_breakdown - weighted_overall c5_breakdown| ≤ 1/200 :=
  (overall_score_weighted_sum c5_breakdown).1

/-- C6: `retry_with_exponential_backoff` performs at most `max_retries + 1`
attempts; if the first success is at attempt `k` (all earlier attempts failing
retryably) it returns that value after exactly `k` delayed waits; and it
raises `RetryError` wrapping the final exception exactly when all
`max_retries + 1` attempts fail with a retryable exception. -/
theorem retry_executor_spec {ε α : Type} (retryable : ε → Bool)
    (f : ℕ → Except ε α) (m : ℕ) :
    attemptsOf (retry_with_exponential_backoff retryable f m) ≤ m + 1 ∧
    (∀ k a, k ≤ m → f k = .ok a →
      (∀ j, j < k → ∃ e, f j = .error e ∧ retryable e = true) →
      retry_with_exponential_backoff retryable f m = .ok a (k + 1) k) ∧
    (∀ e n sl, retry_with_exponential_backoff retryable f m = .exhausted e n sl →
      n = m + 1 ∧ sl = m ∧ f m = .error e ∧
      ∀ i, i ≤ m → ∃ ei, f i = .error ei ∧ retryable ei = true) ∧
    (∀ e, (∀ i, i ≤ m → ∃ ei, f i = .error ei ∧ retryable ei = true) →
      f m = .error e →
      retry_with_exponential_backoff retryable f m = .exhausted e (m + 1) m) := by
  refine ⟨?_, ?_, ?_, ?_⟩
  · have := retryLoop_attempts_le retryable f m 0
    simpa [retry_with_exponential_backoff] using this
  · intro k a hk hf hfail
    have := retryLoop_ok retryable f k m 0 a hk (by simpa using hf) (by simpa using hfail)
    simpa [retry_with_exponential_backoff] using this
  · intro e n sl h
    have := retryLoop_exhausted_elim retryable f m 0 e n sl h
    simpa using this
  · intro e hall hlast
    have := retryLoop_exhausted_intro retryable f m 0 e (by simpa using hall)
      (by simpa using hlast)
    simpa [retry_with_exponential_backoff] using this

/-- C6 witness: the spec's test — failures on attempts 1–2, success on attempt
3, `max_retries = 3` — returns 42 after 3 attempts and exactly 2 waits. -/
theorem retry_executor_spec_witness :
    retry_with_exponential_backoff c6_retryable c6_attempt_results 3 =
      RetryResult.ok 42 3 2 :=
  (retry_executor_spec c6_retryable c6_attempt_results 3).2.1 2 42 (by omega) rfl
    (fun j hj => ⟨7, by interval_cases j <;> rfl, rfl⟩)

/-- C7: the IdentifyWeaknesses stage flags exactly the `". "`-split segments
shorter than 10 characters, as `sentence_too_short`/`medium`/0.7 sections
whose start is the first occurrence of the segment in the draft and whose end
is start plus the segment length; every split segment does occur, and the
reported position is the leftmost occurrence. -/
theorem identify_weaknesses_spec (content : List Char) :
    identify_weaknesses content =
      ((pySplit content).filter (fun sentence => decide (sentence.length < 10))).map
        (short_sentence_section content) ∧
    (∀ sentence, sentence ∈ pySplit content →
      ∃ n : ℕ, pyFind content sentence = (n : ℤ) ∧
        sentence.isPrefixOf (content.drop n) = true ∧
        ∀ m, m < n → sentence.isPrefixOf (content.drop m) = false) ∧
    (∀ ws ∈ identify_weaknesses content,
      ws.issue_type = "sentence_too_short" ∧ ws.severity = "medium" ∧
      ws.confidence = 7/10 ∧
      ∃ sentence ∈ pySplit content, sentence.length < 10 ∧
        ws = short_sentence_section content sentence ∧
        ws.end_position = ws.start_position + (sentence.length : ℤ)) := by
  have hclosed : identify_weaknesses content =
      ((pySplit content).filter (fun sentence => decide (sentence.length < 10))).map
        (short_sentence_section content) := by
    unfold identify_weaknesses
    rw [foldl_filter_map (fun sentence => sentence.length < 10)
      (short_sentence_section content) (pySplit content) []]
    rw [List.nil_append]
  refine ⟨hclosed, ?_, ?_⟩
  · intro sentence hmem
    obtain ⟨k, hk⟩ := mem_pySplit_prefix content sentence hmem
    obtain ⟨n, hn⟩ := findSub_complete sentence content k hk
    obtain ⟨hpre, hmin⟩ := findSub_some_spec sentence content n hn
    exact ⟨n, by unfold pyFind; rw [hn], hpre, hmin⟩
  · intro ws hws
    rw [hclosed] at hws
    obtain ⟨sentence, hsf, rfl⟩ := List.mem_map.mp hws
    obtain ⟨hsmem, hslen⟩ := List.mem_filter.mp hsf
    refine ⟨rfl, rfl, rfl, sentence, hsmem, by simpa using hslen, rfl, rfl⟩

/-- C7 witness: the characterization applied at the spec's example draft. -/
theorem identify_weaknesses_spec_witness :
    identify_weaknesses c7_draft =
      ((pySplit c7_draft).filter (fun sentence => decide (sentence.length < 10))).map
        (short_sentence_section c7_draft) :=
  (identify_weaknesses_spec c7_draft).1

/-- C8: on a fresh (unknown) id, `start_session` then `end_session` succeeds
and removes the session; a second `end_session` on the same id fails with
`SessionNotFound`, as does any `update_draft` on an id not in the store. -/
theorem session_lifecycle (store : SessionStore) (session_id : String)
    (profile : UserProfile) (t0 t1 t2 tu : ℚ) (draft : String) (response : FinalResponse)
    (h : dictGet store session_id = none) :
    (∃ summary store',
      end_session (start_session store session_id profile t0) session_id t1 =
        .ok (summary, store') ∧
      dictGet store' session_id = none ∧
      end_session store' session_id t2 = .error (.sessionNotFound session_id)) ∧
    update_draft store session_id draft response tu =
      .error (.sessionNotFound session_id) := by
  constructor
  · refine ⟨{ session_duration := t1 - t0, total_suggestions := 0,
              final_draft_length := 0, average_score := 0 },
            dictDel (start_session store session_id profile t0) session_id, ?_, ?_, ?_⟩
    · unfold end_session start_session
      rw [dictGet_dictSet_same]
      rfl
    · exact dictGet_dictDel_same _ _
    · unfold end_session
      rw [dictGet_dictDel_same]
  · unfold update_draft
    rw [h]

/-- C8 witness: the lifecycle applied on the empty store with a concrete id. -/
theorem session_lifecycle_witness :
    update_draft ([] : SessionStore) "s1" "" c8_response 3 =
      .error (.sessionNotFound "s1") :=
  (session_lifecycle [] "s1" c1_profile 0 1 2 3 "" c8_response rfl).2

/-- C10: however many `update_draft` calls a session has processed, its
`score_history` stays empty — `update_draft` appends only to
`suggestion_history` — so `end_session` reports
`average_score = _calculate_average_score([]) = 0`. -/
theorem average_score_always_zero (store : SessionStore) (session_id : String)
    (profile : UserProfile) (t0 : ℚ) (updates : List (String × FinalResponse × ℚ))
    (t1 : ℚ) :
    calculate_average_score [] = 0 ∧
    (∀ session,
      dictGet (apply_updates session_id (start_session store session_id profile t0) updates)
        session_id = some session → session.score_history = []) ∧
    ∃ summary store',
      end_session (apply_updates session_id (start_session store session_id profile t0) updates)
        session_id t1 = .ok (summary, store') ∧
      summary.average_score = 0 := by
  obtain ⟨session, hget, hsc⟩ :=
    apply_updates_score_history session_id updates
      (start_session store session_id profile t0) ⟨_, dictGet_dictSet_same _ _ _, rfl⟩
  refine ⟨rfl, ?_, ?_⟩
  · intro s hs
    rw [hget] at hs
    injection hs with hse
    rw [← hse]
    exact hsc
  · refine ⟨{ session_duration := t1 - session.created_at,
              total_suggestions := session.suggestion_history.length,
              final_draft_length := session.current_draft.length,
              average_score := calculate_average_score session.score_history },
            dictDel (apply_updates session_id (start_session store session_id profile t0) updates)
              session_id, ?_, ?_⟩
    · unfold end_session
      rw [hget]
    · show calculate_average_score session.score_history = 0
      rw [hsc]
      rfl

/-- C10 witness: one update on a fresh session still yields average score 0. -/
theorem average_score_always_zero_witness :
    ∃ summary store',
      end_session (apply_updates "s1" (start_session [] "s1" c1_profile 0)
          [("d", c8_response, 1)]) "s1" 2 = .ok (summary, store') ∧
      summary.average_score = 0 :=
  (average_score_always_zero [] "s1" c1_profile 0 [("d", c8_response, 1)] 2).2.2

/-- C9: `_validate_and_sanitize_response` is idempotent — for every response
value of any of the three schemas, sanitizing an already-sanitized response
yields the same values (the range clamps, integer coercions and list
truncations are fixed points on their own outputs). -/
theorem sanitize_idempotent (r : ResponseData) :
    validate_and_sanitize_response (validate_and_sanitize_response r) =
      validate_and_sanitize_response r := by
  cases r with
  | blogAnalysis d =>
    simp only [validate_and_sanitize_response]
    rw [sanitizeBlogAnalysis_idem]
  | keywordRecommendations d =>
    simp only [validate_and_sanitize_response]
    rw [sanitizeKeywordRecs_idem]
  | contentScoring d =>
    simp only [validate_and_sanitize_response]
    rw [sanitizeContentScoring_idem]

/-- C9 witness: idempotence at a concrete out-of-contract response. -/
theorem sanitize_idempotent_witness :
    validate_and_sanitize_response (validate_and_sanitize_response c9_example) =
      validate_and_sanitize_response c9_example :=
  sanitize_idempotent c9_example

end Spec2Proof
